/-
Verification of the AWG (atmospheric water generator) VCR-cycle sweep programs
`final.py` (refrigerant-mass-flow sweep) and `vcr_cycle.py` (dry-air-mass-flow
sweep) against their natural-language specification.

Shallow embedding conventions:
- Machine floats are modelled as exact rationals (ℚ).  A float that can be the
  IEEE value NaN (Python `float("nan")` / `np.nan`) is modelled as `Option ℚ`,
  with `none` standing for NaN.
- Quantities the programs obtain from external property libraries (CoolProp
  `PropsSI`, psychrolib) or from the weather supplier are run-level inputs,
  collected in a structure of per-run constants.  Everything the programs
  compute from those inputs is defined here exactly as in the source.
- `np.pi` is modelled by its printed double value `pi_f`.
- The heat-exchanger effectiveness `eps = 1 - exp(-NTU)` involves the real
  exponential evaluated by numpy; `eps` is therefore a run-level input as well.
-/
import Mathlib

set_option maxHeartbeats 1000000

/-! ## Shared functions: isentropic efficiency (final.py line 141-142,
vcr_cycle.py lines 62-65).  `np.clip(x, lo, hi) = min (max x lo) hi`. -/

/-- `final.py` line 141-142: `np.clip(0.78 - 0.03 * max(0, PR - 2), 0.6, 0.85)`. -/
def isentropic_eff (PR : ℚ) : ℚ :=
  min (max (78/100 - 3/100 * max 0 (PR - 2)) (6/10)) (85/100)

/-- `vcr_cycle.py` lines 62-65: `eta = 0.78 - 0.03 * max(0, pressure_ratio - 2.0)`
then `np.clip(eta, 0.60, 0.85)`. -/
def estimate_isentropic_efficiency (PR : ℚ) : ℚ :=
  min (max (78/100 - 3/100 * max 0 (PR - 2)) (60/100)) (85/100)

/-- Regime classification used by both the air-side (final.py line 214) and the
per-sample line 258: `"Laminar" if Re < 2300 else "Transitional" if Re < 4000
else "Turbulent"`. -/
def classifyRegime (Re : ℚ) : String :=
  if Re < 2300 then "Laminar" else if Re < 4000 then "Transitional" else "Turbulent"

/-! ## Model of `final.py` (refrigerant-mass-flow sweep)

Run-level constants of `run()`: values fetched from the weather supplier,
psychrolib and CoolProp, plus the editable configuration constants.  All of
them are independent of the sweep variable `m_ref`. -/

structure FinalConsts where
  /-- dry-air mass flow `m_da` (line 175; depends on the external `rho_air`). -/
  m_da : ℚ
  /-- `omega_in` from psychrolib (line 160). -/
  omega_in : ℚ
  /-- `omega_out` from psychrolib (line 161). -/
  omega_out : ℚ
  /-- ambient dry-bulb temperature `T_amb` (°C). -/
  T_amb : ℚ
  /-- dew point `T_dew` from psychrolib (line 148). -/
  T_dew : ℚ
  /-- `h1 = PropsSI("H","T",T_evap_K,"Q",1,refrigerant)` (line 187). -/
  h1 : ℚ
  /-- `h3 = PropsSI("H","T",T_cond_K,"Q",0,refrigerant)` (line 191). -/
  h3 : ℚ
  /-- `h2s = PropsSI("H","P",P_cond,"S",s1,refrigerant)` (line 198). -/
  h2s : ℚ
  /-- saturation pressure `P_evap` (line 182). -/
  P_evap : ℚ
  /-- saturation pressure `P_cond` (line 183). -/
  P_cond : ℚ
  /-- effectiveness `eps = 1 - np.exp(-NTU)` (line 236); involves the real
  exponential, hence a run-level input here. -/
  eps : ℚ
  /-- refrigerant dynamic viscosity `mu_ref` from PropsSI (line 202). -/
  mu_ref : ℚ
  /-- configured tube diameter `D_tube` (line 78). -/
  D_tube : ℚ
  /-- configured flow area `A_tube` (line 80). -/
  A_tube : ℚ
  /-- air-side Reynolds number `Re` (line 213; depends on external `mu_air`). -/
  Re_air : ℚ
deriving DecidableEq

/-- line 231: `water = m_da * (omega_in - omega_out)` (no clamp in final.py). -/
def waterF (c : FinalConsts) : ℚ := c.m_da * (c.omega_in - c.omega_out)

/-- line 227: `cp_moist = 1005 + omega_in * 1860`. -/
def cp_moist (c : FinalConsts) : ℚ := 1005 + c.omega_in * 1860

/-- line 228: `T_target = T_dew - 5`. -/
def T_target (c : FinalConsts) : ℚ := c.T_dew - 5

/-- line 230: `Q_s = m_da * cp_moist * (T_amb - T_target)`. -/
def Q_s (c : FinalConsts) : ℚ := c.m_da * cp_moist c * (c.T_amb - T_target c)

/-- line 232: `Q_l = water * L_vap` with `L_vap = 2.45e6`. -/
def Q_l (c : FinalConsts) : ℚ := waterF c * 2450000

/-- line 233: `Q_required = Q_s + Q_l`. -/
def Q_req (c : FinalConsts) : ℚ := Q_s c + Q_l c

/-- line 196: `PR = P_cond / P_evap`. -/
def PR_f (c : FinalConsts) : ℚ := c.P_cond / c.P_evap

/-- line 197: `eta = isentropic_eff(PR)`. -/
def eta_f (c : FinalConsts) : ℚ := isentropic_eff (PR_f c)

/-- line 199: `h2 = h1 + (h2s - h1) / eta`. -/
def h2_f (c : FinalConsts) : ℚ := c.h1 + (c.h2s - c.h1) / eta_f c

/-- lines 194, 201: `h4 = h3`; `q_evap = h1 - h4`. -/
def q_evap_f (c : FinalConsts) : ℚ := c.h1 - c.h3

/-- line 242: `Q_ref = m_ref * q_evap`. -/
def Qref (c : FinalConsts) (m : ℚ) : ℚ := m * q_evap_f c

/-- line 243: `Q_actual = eps * Q_ref`. -/
def Qactual (c : FinalConsts) (m : ℚ) : ℚ := c.eps * Qref c m

/-- line 245: `W_comp = m_ref * (h2 - h1)`. -/
def Wcomp (c : FinalConsts) (m : ℚ) : ℚ := m * (h2_f c - c.h1)

/-- One row appended by the sweep loop of `final.py` (lines 261-263).
Fields that replicate run-level constants verbatim in the CSV (`m_da`, `NTU`,
`eps`, `Q_required`) are omitted; `COP` and `water_kg_per_kWh`, which the code
sets to `np.nan` when `W_comp` is not positive, are `Option ℚ` with `none` for
NaN. -/
structure Row where
  m_ref : ℚ
  Q_actual : ℚ
  error : ℚ
  water_hr : ℚ
  water_per_kWh : Option ℚ
  W_comp : ℚ
  COP : Option ℚ
  Re_ref : ℚ
  regime : String
deriving DecidableEq

/-- Body of the sweep loop, `final.py` lines 240-263.  Note line 258 classifies
`regime_ref` from the air-side `Re` (the run-level `c.Re_air`), not from the
just-computed `Re_ref`. -/
def sampleRow (c : FinalConsts) (m : ℚ) : Row :=
  { m_ref := m
    Q_actual := Qactual c m
    error := |Qactual c m - Q_req c|
    water_hr := waterF c * 3600
    water_per_kWh :=
      if 0 < Wcomp c m then some (waterF c * 3600 / (Wcomp c m / 1000)) else none
    W_comp := Wcomp c m
    COP := if 0 < Wcomp c m then some (Qactual c m / Wcomp c m) else none
    Re_ref := m * c.D_tube / (c.mu_ref * c.A_tube)
    regime := classifyRegime c.Re_air }

/-- `m_ref_vals = np.round(np.arange(0.1, 20.1, 0.1), 1)` (line 71): the 200
values 0.1, 0.2, …, 20.0. -/
def m_ref_vals : List ℚ := (List.range 200).map (fun k : Nat => ((k : ℚ) + 1) / 10)

/-- The sweep table of `run()`: one row per candidate, in candidate order. -/
def sweepTable (c : FinalConsts) (ms : List ℚ) : List Row := ms.map (sampleRow c)

/-- The table produced by `final.py`'s `run()`. -/
def finalTable (c : FinalConsts) : List Row := sweepTable c m_ref_vals

/-- The `Error` column of the table. -/
def errorList (c : FinalConsts) : List ℚ := (finalTable c).map Row.error

/-- Model of pandas `Series.idxmin` on a NaN-free column with the default
integer index: the index of the first occurrence of the minimum. -/
def firstArgmin : List ℚ → Nat
  | [] => 0
  | x :: xs =>
    match xs with
    | [] => 0
    | _ :: _ => if xs.getD (firstArgmin xs) 0 < x then firstArgmin xs + 1 else 0

/-- `final.py` line 284: `best = df.loc[df["Error"].idxmin()]`. -/
def selectBest (c : FinalConsts) : Option Row :=
  (finalTable c)[firstArgmin (errorList c)]?

/-! ## Model of the geometry configuration (`final.py` lines 78-80)

`D_tube = 0.01`, `N_evaporator = 1`, `A_tube = (np.pi * D_tube**2 / 4) * N_evaporator`.
There is no validation of any kind in the source: the assignment is
unconditional, so configuration always accepts.  To compare against the
specification's demanded `InvalidGeometryError`, the outcome is made explicit
as a sum type. -/

/-- The printed value of the double constant `np.pi` used by the source. -/
def pi_f : ℚ := 3141592653589793 / 1000000000000000

/-- line 80: `A_tube = (np.pi * D_tube**2 / 4) * N_evaporator`. -/
def A_tube_calc (D N : ℚ) : ℚ := (pi_f * D ^ 2 / 4) * N

inductive ConfigOutcome where
  | accepted (area : ℚ)
  | rejectedInvalidGeometry
deriving DecidableEq

/-- The configuration step of `final.py` (lines 78-80) as it is in the source:
it computes `A_tube` unconditionally and never rejects — no geometry check and
no `InvalidGeometryError` exist anywhere in the repository. -/
def configureGeometry (D N : ℚ) : ConfigOutcome :=
  ConfigOutcome.accepted (A_tube_calc D N)

/-- Refinement target, following the specification's words (spec §4.3, §7):
non-positive configured geometry (tube diameter, area) is rejected with
`InvalidGeometryError` at configuration-validation time. -/
def configureGeometry_spec (D N : ℚ) : ConfigOutcome :=
  if D ≤ 0 ∨ A_tube_calc D N ≤ 0 then ConfigOutcome.rejectedInvalidGeometry
  else ConfigOutcome.accepted (A_tube_calc D N)

/-! ## Model of `fetch_weather` (`final.py` lines 88-140)

The module's import list (lines 40-47) — relevant because the manual branch
refers to the name `csv`, which is resolved against it at run time. -/

def final_py_imports : List String :=
  ["os", "numpy", "pandas", "requests", "CoolProp.CoolProp", "dotenv", "psychrolib"]

inductive PyExc where
  | nameError
  | ioError
deriving DecidableEq

structure WeatherTriple where
  T : ℚ
  P : ℚ
  RH : ℚ
deriving DecidableEq

/-- The `try` block of the manual fallback (lines 122-136).  `fileContents` is
`none` when `open('input_data.csv')` raises, otherwise the parsed rows.  If the
file opens, the code immediately evaluates `csv.DictReader(file)`: the name
`csv` is looked up in the module's imports and raises `NameError` when absent.
With `csv` imported it would return the first row, or fall off the end of the
function (Python `None`, modelled `Except.ok none`) when the file has no rows. -/
def manualInputTry (fileContents : Option (List WeatherTriple)) :
    Except PyExc (Option WeatherTriple) :=
  match fileContents with
  | none => Except.error PyExc.ioError
  | some rows =>
    if final_py_imports.contains "csv" then Except.ok rows.head?
    else Except.error PyExc.nameError

/-- lines 119-140: the manual fallback wrapped in `try/except Exception`; on
any exception the hardcoded defaults `(32.0, 101325.0, 0.7)` are returned. -/
def fetch_weather_fallback (fileContents : Option (List WeatherTriple)) :
    Option WeatherTriple :=
  match manualInputTry fileContents with
  | Except.error _ => some ⟨32, 101325, 7/10⟩
  | Except.ok r => r

/-- `fetch_weather` (lines 88-140): `apiResult` is `some w` when the API branch
is taken and succeeds, `none` when it is skipped (no key) or raises. -/
def fetch_weather (apiResult : Option WeatherTriple)
    (fileContents : Option (List WeatherTriple)) : Option WeatherTriple :=
  match apiResult with
  | some w => some w
  | none => fetch_weather_fallback fileContents

/-! ## Model of `vcr_cycle.py` (dry-air-mass-flow sweep, lines 100-255) -/

structure VcrConsts where
  /-- `h_in` from psychrolib (line 134). -/
  h_in : ℚ
  /-- `h_out_saturated` from psychrolib (line 135). -/
  h_out : ℚ
  /-- `omega_in` from psychrolib (line 132). -/
  omega_in : ℚ
  /-- `omega_sat_evap` from psychrolib (line 133). -/
  omega_sat : ℚ
  /-- `h1` from PropsSI (line 147). -/
  h1 : ℚ
  /-- `h2s` from PropsSI (line 180); the success case of the `try` is modelled. -/
  h2s : ℚ
  /-- `h4 = h3` from PropsSI (lines 151, 154). -/
  h4 : ℚ
  /-- `P_evap` from PropsSI (line 142). -/
  P_evap : ℚ
  /-- `P_cond` from PropsSI (line 143). -/
  P_cond : ℚ
deriving DecidableEq

/-- line 163: `Q_dot_air_W = m_da * (h_in - h_out_saturated)`. -/
def vcrQ (vc : VcrConsts) (m_da : ℚ) : ℚ := m_da * (vc.h_in - vc.h_out)

/-- lines 172, 208: `water_kg_hr = max(0.0, m_da * (omega_in - omega_sat_evap) * 3600.0)`. -/
def vcrWater (vc : VcrConsts) (m_da : ℚ) : ℚ :=
  max 0 (m_da * (vc.omega_in - vc.omega_sat) * 3600)

/-- line 186: `PR = float(P_cond / P_evap) if P_evap > 0 else 1.0`. -/
def vcrPR (vc : VcrConsts) : ℚ := if 0 < vc.P_evap then vc.P_cond / vc.P_evap else 1

/-- line 187: `eta_isentropic = estimate_isentropic_efficiency(PR)`. -/
def vcrEta (vc : VcrConsts) : ℚ := estimate_isentropic_efficiency (vcrPR vc)

/-- line 189: `h2 = h1 + (h2s - h1) / eta_isentropic`. -/
def vcrH2 (vc : VcrConsts) : ℚ := vc.h1 + (vc.h2s - vc.h1) / vcrEta vc

/-- line 192: `q_evap_specific = h1 - h4`. -/
def vcrQevap (vc : VcrConsts) : ℚ := vc.h1 - vc.h4

/-- line 199: `m_ref = Q_dot_air_W / q_evap_specific`. -/
def vcrMref (vc : VcrConsts) (m_da : ℚ) : ℚ := vcrQ vc m_da / vcrQevap vc

/-- line 202: `W_comp = m_ref * (h2 - h1)`. -/
def vcrW (vc : VcrConsts) (m_da : ℚ) : ℚ := vcrMref vc m_da * (vcrH2 vc - vc.h1)

/-- One row appended by `run_simulation` (lines 161-237), restricted to the
columns the claims are about.  Fields that Python can set to `float("nan")`
are `Option ℚ` with `none` for NaN. -/
structure VRow where
  m_da : ℚ
  Q : ℚ
  m_ref : Option ℚ
  W_comp : Option ℚ
  COP : Option ℚ
  water_kg_hr : ℚ
  wpk : Option ℚ
deriving DecidableEq

/-- Loop body of `run_simulation`, lines 161-237.  Branches:
* `Q_dot_air_W <= 0` (line 164): a literal row with `m_ref=0.0`, `W_comp=0.0`,
  `COP=0.0`, `water_kg_per_kWh=0.0` — all the number zero, not NaN;
* `q_evap_specific <= 0` (line 193): `m_ref`, `W_comp`, `COP` are NaN;
* otherwise `COP = Q/W_comp if W_comp > 0 else nan` (line 205) and
  `water_kg_per_kWh = water/energy_kW if (energy_kW and energy_kW > 0) else nan`
  (lines 211-212), where `energy_kW = W_comp/1000 if W_comp > 0 else nan`. -/
def vcrRow (vc : VcrConsts) (m_da : ℚ) : VRow :=
  if vcrQ vc m_da ≤ 0 then
    { m_da := m_da, Q := vcrQ vc m_da, m_ref := some 0, W_comp := some 0,
      COP := some 0, water_kg_hr := vcrWater vc m_da, wpk := some 0 }
  else if vcrQevap vc ≤ 0 then
    { m_da := m_da, Q := vcrQ vc m_da, m_ref := none, W_comp := none,
      COP := none, water_kg_hr := vcrWater vc m_da, wpk := none }
  else
    { m_da := m_da, Q := vcrQ vc m_da, m_ref := some (vcrMref vc m_da),
      W_comp := some (vcrW vc m_da),
      COP := if 0 < vcrW vc m_da then some (vcrQ vc m_da / vcrW vc m_da) else none,
      water_kg_hr := vcrWater vc m_da,
      wpk :=
        if 0 < vcrW vc m_da then
          (if 0 < vcrW vc m_da / 1000 then some (vcrWater vc m_da / (vcrW vc m_da / 1000))
           else none)
        else none }

/-- `m_vals = np.round(np.arange(0.1, 5.0, 0.1), 2)` (line 158): the 49 values
0.1, 0.2, …, 4.9. -/
def m_da_vals : List ℚ := (List.range 49).map (fun k : Nat => ((k : ℚ) + 1) / 10)

/-- The table produced by `run_simulation`. -/
def vcrTable (vc : VcrConsts) : List VRow := m_da_vals.map (vcrRow vc)

/-- Truthiness of a possibly-NaN float being `> 0` in Python: NaN compares
false. -/
def optPos : Option ℚ → Bool
  | some v => decide (0 < v)
  | none => false

/-- line 247: membership in `df_valid = df[df["water_kg_per_kWh"].notnull() &
(df["water_kg_per_kWh"] > 0)]`. -/
def vcrValid (r : VRow) : Bool := optPos r.wpk

/-- A row of maximal `water_kg_per_kWh` among `x :: xs` (the order pandas'
unstable descending `sort_values` puts ties in is unspecified; only which rows
are candidates matters to the claims). -/
def maxWpkRow : VRow → List VRow → VRow
  | x, [] => x
  | x, y :: ys => if x.wpk.getD 0 < y.wpk.getD 0 then maxWpkRow y ys else maxWpkRow x ys

/-- lines 245-253: the selected best row by `water_kg_per_kWh`, or `none` when
`df_valid` is empty (the code then prints "No valid results to determine best
mass flow."). -/
def vcrBest (vc : VcrConsts) : Option VRow :=
  match (vcrTable vc).filter vcrValid with
  | [] => none
  | x :: xs => some (maxWpkRow x xs)

/-! ## Helper lemmas about `firstArgmin` -/

lemma firstArgmin_cons_cons (x y : ℚ) (ys : List ℚ) :
    firstArgmin (x :: y :: ys) =
      if (y :: ys).getD (firstArgmin (y :: ys)) 0 < x then firstArgmin (y :: ys) + 1
      else 0 := rfl

lemma firstArgmin_lt_length : ∀ (l : List ℚ), l ≠ [] → firstArgmin l < l.length
  | [], h => absurd rfl h
  | [_], _ => Nat.zero_lt_one
  | x :: y :: ys, _ => by
    rw [firstArgmin_cons_cons]
    split
    · have := firstArgmin_lt_length (y :: ys) (by simp)
      simpa [List.length_cons] using Nat.succ_lt_succ this
    · simp [List.length_cons]

lemma firstArgmin_le : ∀ (l : List ℚ) (j : Nat), j < l.length →
    l.getD (firstArgmin l) 0 ≤ l.getD j 0
  | [], j, hj => by simp at hj
  | [x], j, hj => by
    match j with
    | 0 => simp [firstArgmin]
    | j + 1 => simp at hj
  | x :: y :: ys, j, hj => by
    rw [firstArgmin_cons_cons]
    by_cases h : (y :: ys).getD (firstArgmin (y :: ys)) 0 < x
    · rw [if_pos h, List.getD_cons_succ]
      match j with
      | 0 => exact le_of_lt h
      | j + 1 =>
        rw [List.getD_cons_succ]
        exact firstArgmin_le (y :: ys) j (by simpa [List.length_cons] using hj)
    · push_neg at h
      rw [if_neg (not_lt.mpr h), List.getD_cons_zero]
      match j with
      | 0 => simp
      | j + 1 =>
        rw [List.getD_cons_succ]
        exact le_trans h (firstArgmin_le (y :: ys) j (by simpa [List.length_cons] using hj))

lemma firstArgmin_first : ∀ (l : List ℚ) (j : Nat), j < firstArgmin l →
    l.getD (firstArgmin l) 0 < l.getD j 0
  | [], j, hj => by simp [firstArgmin] at hj
  | [x], j, hj => by simp [firstArgmin] at hj
  | x :: y :: ys, j, hj => by
    rw [firstArgmin_cons_cons] at hj ⊢
    by_cases h : (y :: ys).getD (firstArgmin (y :: ys)) 0 < x
    · rw [if_pos h] at hj ⊢
      rw [List.getD_cons_succ]
      match j with
      | 0 => exact h
      | j + 1 =>
        rw [List.getD_cons_succ]
        exact firstArgmin_first (y :: ys) j (Nat.lt_of_succ_lt_succ hj)
    · rw [if_neg h] at hj
      exact absurd hj (Nat.not_lt_zero j)

/-! ## Table indexing lemmas for `final.py` -/

lemma m_ref_vals_length : m_ref_vals.length = 200 := by
  rw [m_ref_vals, List.length_map, List.length_range]

lemma m_ref_vals_getElem? {k : Nat} (h : k < 200) :
    m_ref_vals[k]? = some (((k : ℚ) + 1) / 10) := by
  rw [m_ref_vals, List.getElem?_map, List.getElem?_range h]
  rfl

lemma finalTable_length (c : FinalConsts) : (finalTable c).length = 200 := by
  rw [finalTable, sweepTable, List.length_map, m_ref_vals_length]

lemma finalTable_getElem? (c : FinalConsts) {k : Nat} (h : k < 200) :
    (finalTable c)[k]? = some (sampleRow c (((k : ℚ) + 1) / 10)) := by
  rw [finalTable, sweepTable, List.getElem?_map, m_ref_vals_getElem? h]
  rfl

lemma errorList_length (c : FinalConsts) : (errorList c).length = 200 := by
  rw [errorList, List.length_map, finalTable_length]

lemma errorList_getD (c : FinalConsts) {k : Nat} (h : k < 200) :
    (errorList c).getD k 0 = (sampleRow c (((k : ℚ) + 1) / 10)).error := by
  rw [List.getD_eq_getElem?_getD, errorList, List.getElem?_map, finalTable_getElem? c h]
  rfl

lemma mem_finalTable (c : FinalConsts) {r : Row} (h : r ∈ finalTable c) :
    ∃ j : Nat, j < 200 ∧ r = sampleRow c (((j : ℚ) + 1) / 10) := by
  rw [finalTable, sweepTable] at h
  obtain ⟨m, hm, rfl⟩ := List.mem_map.mp h
  obtain ⟨j, hj, rfl⟩ := List.mem_map.mp hm
  exact ⟨j, List.mem_range.mp hj, rfl⟩

lemma sampleRow_mem_finalTable (c : FinalConsts) {j : Nat} (h : j < 200) :
    sampleRow c (((j : ℚ) + 1) / 10) ∈ finalTable c := by
  rw [finalTable, sweepTable]
  exact List.mem_map_of_mem _ (List.mem_map_of_mem _ (List.mem_range.mpr h))

/-! ## Row-level lemmas for `final.py` -/

lemma sampleRow_COP_of_pos {c : FinalConsts} {m : ℚ} (h : 0 < Wcomp c m) :
    (sampleRow c m).COP = some (Qactual c m / Wcomp c m) := by
  simp [sampleRow, h]

lemma sampleRow_COP_of_nonpos {c : FinalConsts} {m : ℚ} (h : Wcomp c m ≤ 0) :
    (sampleRow c m).COP = none := by
  simp [sampleRow, not_lt.mpr h]

lemma sampleRow_wpk_of_nonpos {c : FinalConsts} {m : ℚ} (h : Wcomp c m ≤ 0) :
    (sampleRow c m).water_per_kWh = none := by
  simp [sampleRow, not_lt.mpr h]

/-! ## Row-level lemmas for `vcr_cycle.py` -/

lemma vcrRow_Q (vc : VcrConsts) (m : ℚ) : (vcrRow vc m).Q = vcrQ vc m := by
  rw [vcrRow]
  split
  · rfl
  · split <;> rfl

lemma vcrRow_of_Q_nonpos {vc : VcrConsts} {m : ℚ} (h : vcrQ vc m ≤ 0) :
    (vcrRow vc m).W_comp = some 0 ∧ (vcrRow vc m).COP = some 0 ∧
      (vcrRow vc m).wpk = some 0 := by
  rw [vcrRow, if_pos h]
  exact ⟨rfl, rfl, rfl⟩

lemma vcrRow_of_qevap_nonpos {vc : VcrConsts} {m : ℚ} (hQ : ¬ vcrQ vc m ≤ 0)
    (hq : vcrQevap vc ≤ 0) :
    (vcrRow vc m).m_ref = none ∧ (vcrRow vc m).W_comp = none ∧
      (vcrRow vc m).COP = none ∧ (vcrRow vc m).wpk = none := by
  rw [vcrRow, if_neg hQ, if_pos hq]
  exact ⟨rfl, rfl, rfl, rfl⟩

lemma vcrRow_main {vc : VcrConsts} {m : ℚ} (hQ : ¬ vcrQ vc m ≤ 0)
    (hq : ¬ vcrQevap vc ≤ 0) :
    (vcrRow vc m).W_comp = some (vcrW vc m) ∧
      (vcrRow vc m).COP =
        (if 0 < vcrW vc m then some (vcrQ vc m / vcrW vc m) else none) ∧
      (vcrRow vc m).wpk =
        (if 0 < vcrW vc m then
          (if 0 < vcrW vc m / 1000 then some (vcrWater vc m / (vcrW vc m / 1000))
           else none)
         else none) := by
  rw [vcrRow, if_neg hQ, if_neg hq]
  exact ⟨rfl, rfl, rfl⟩

lemma vcrValid_of_W_not_pos {vc : VcrConsts} {m : ℚ}
    (h : optPos (vcrRow vc m).W_comp = false) :
    vcrValid (vcrRow vc m) = false := by
  rw [vcrValid]
  by_cases hQ : vcrQ vc m ≤ 0
  · rw [(vcrRow_of_Q_nonpos hQ).2.2]
    simp [optPos]
  · by_cases hq : vcrQevap vc ≤ 0
    · rw [(vcrRow_of_qevap_nonpos hQ hq).2.2.2]
      rfl
    · obtain ⟨hW, -, hwpk⟩ := vcrRow_main hQ hq
      rw [hW] at h
      have hWn : ¬ 0 < vcrW vc m := by
        simpa [optPos] using h
      rw [hwpk, if_neg hWn]
      rfl

lemma mem_vcrTable {vc : VcrConsts} {r : VRow} (h : r ∈ vcrTable vc) :
    ∃ m : ℚ, r = vcrRow vc m := by
  obtain ⟨m, -, rfl⟩ := List.mem_map.mp h
  exact ⟨m, rfl⟩

/-! ## Claim C1 -/

/-- C1: the isentropic efficiency function returns
`clip(0.78 - 0.03*max(0, PR - 2), 0.60, 0.85)`: the result always lies within
[0.60, 0.85], equals 0.78 for `PR ≤ 2`, is non-increasing in `PR` for
`PR ≥ 2`, and the `vcr_cycle.py` variant computes the same function. -/
theorem C1_isentropic_eff_correct :
    (∀ PR : ℚ, 60/100 ≤ isentropic_eff PR ∧ isentropic_eff PR ≤ 85/100) ∧
    (∀ PR : ℚ, PR ≤ 2 → isentropic_eff PR = 78/100) ∧
    (∀ PR₁ PR₂ : ℚ, 2 ≤ PR₁ → PR₁ ≤ PR₂ →
      isentropic_eff PR₂ ≤ isentropic_eff PR₁) ∧
    (∀ PR : ℚ, estimate_isentropic_efficiency PR = isentropic_eff PR) := by
  refine ⟨?_, ?_, ?_, ?_⟩
  · intro PR
    rw [isentropic_eff]
    constructor
    · exact le_min (le_trans (by norm_num) (le_max_right _ _)) (by norm_num)
    · exact min_le_right _ _
  · intro PR h
    rw [isentropic_eff, max_eq_left (by linarith : PR - 2 ≤ 0)]
    rw [show (78:ℚ)/100 - 3/100 * 0 = 78/100 by ring]
    rw [max_eq_left (by norm_num), min_eq_left (by norm_num)]
  · intro PR₁ PR₂ h2 h12
    rw [isentropic_eff, isentropic_eff]
    refine min_le_min (max_le_max ?_ le_rfl) le_rfl
    have hmax : max 0 (PR₁ - 2) ≤ max 0 (PR₂ - 2) :=
      max_le_max le_rfl (by linarith)
    have := mul_le_mul_of_nonneg_left hmax (by norm_num : (0:ℚ) ≤ 3/100)
    linarith
  · intro PR
    rw [estimate_isentropic_efficiency, isentropic_eff]
    norm_num

/-- C1 witness: concrete instances of the clamp bounds, the constant region,
the monotone region and the agreement of the two variants. -/
theorem C1_witness :
    ((60:ℚ)/100 ≤ isentropic_eff 10 ∧ isentropic_eff 10 ≤ 85/100) ∧
    isentropic_eff 1 = 78/100 ∧
    isentropic_eff 7 ≤ isentropic_eff 3 ∧
    estimate_isentropic_efficiency 10 = isentropic_eff 10 :=
  ⟨C1_isentropic_eff_correct.1 10,
   C1_isentropic_eff_correct.2.1 1 (by norm_num),
   C1_isentropic_eff_correct.2.2.1 3 7 (by norm_num) (by norm_num),
   C1_isentropic_eff_correct.2.2.2 10⟩

/-! ## Claim C2 -/

/-- A run state in which the air-side Reynolds number is turbulent (5000) while
the refrigerant-side geometry and viscosity make `Re_ref` tiny for small
`m_ref`.  All fields are legal inputs of `run()` (weather and property values
are external inputs, geometry is editable configuration). -/
def c2x : FinalConsts :=
  { m_da := 1, omega_in := 0, omega_out := 0, T_amb := 30, T_dew := 25,
    h1 := 0, h3 := 0, h2s := 0, P_evap := 1, P_cond := 1, eps := 1,
    mu_ref := 1, D_tube := 1, A_tube := 1, Re_air := 5000 }

/-- C2: refuted — `final.py` line 258 computes the per-sample `flow_regime`
from the run-level air-side `Re`, not from the sample's `Re_ref` computed on
line 257.  Here `Re_ref = 0.1` (Laminar) but the reported row regime is the
classification of the air-side `Re = 5000` (Turbulent). -/
theorem C2_regime_not_from_Re_ref :
    (sampleRow c2x (1/10)).Re_ref = 1/10 ∧
    classifyRegime ((sampleRow c2x (1/10)).Re_ref) = "Laminar" ∧
    (sampleRow c2x (1/10)).regime = "Turbulent" := by
  have h1 : (sampleRow c2x (1/10)).Re_ref = 1/10 := by
    show (1/10 : ℚ) * c2x.D_tube / (c2x.mu_ref * c2x.A_tube) = 1/10
    norm_num [c2x]
  refine ⟨h1, ?_, ?_⟩
  · rw [h1, classifyRegime, if_pos (by norm_num : (1:ℚ)/10 < 2300)]
  · show classifyRegime c2x.Re_air = "Turbulent"
    rw [classifyRegime, if_neg (by norm_num [c2x]), if_neg (by norm_num [c2x])]

/-! ## Claim C3 -/

/-- A run state with `omega_in < omega_out` (inlet humidity ratio below the
saturated-outlet one). -/
def c3x : FinalConsts :=
  { m_da := 1, omega_in := 1/100, omega_out := 2/100, T_amb := 30, T_dew := 25,
    h1 := 0, h3 := 0, h2s := 0, P_evap := 1, P_cond := 1, eps := 1,
    mu_ref := 1, D_tube := 1, A_tube := 1, Re_air := 5000 }

/-- A `vcr_cycle.py` run state with `omega_in < omega_sat_evap` on the main
branch (positive air-side load and positive specific refrigeration effect). -/
def vc3x : VcrConsts :=
  { h_in := 1, h_out := 0, omega_in := 1/100, omega_sat := 2/100,
    h1 := 1, h2s := 2, h4 := 0, P_evap := 1, P_cond := 1 }

/-- C3: refuted for `final.py` — line 231 computes
`water = m_da * (omega_in - omega_out)` with no clamp, so with
`omega_in ≤ omega_out` every row reports the negative value
`water_kg_hr = -36`, not zero.  `vcr_cycle.py` line 208 does clamp
(`max(0.0, ...)`), as the specification demands. -/
theorem C3_final_reports_negative_water :
    c3x.omega_in ≤ c3x.omega_out ∧
    (sampleRow c3x (1/10)).water_hr = -36 ∧
    (sampleRow c3x (1/10)).water_hr < 0 ∧
    vc3x.omega_in ≤ vc3x.omega_sat ∧
    (vcrRow vc3x 1).water_kg_hr = 0 := by
  have hw : (vcrRow vc3x 1).water_kg_hr = vcrWater vc3x 1 := by
    rw [vcrRow, if_neg (by norm_num [vcrQ, vc3x]), if_neg (by norm_num [vcrQevap, vc3x])]
  refine ⟨by norm_num [c3x], ?_, ?_, by norm_num [vc3x], ?_⟩
  · show waterF c3x * 3600 = -36
    norm_num [waterF, c3x]
  · show waterF c3x * 3600 < 0
    norm_num [waterF, c3x]
  · rw [hw, vcrWater,
      show vc3x.omega_in - vc3x.omega_sat = -(1/100) by norm_num [vc3x]]
    rw [show (1:ℚ) * -(1/100) * 3600 = -36 by norm_num]
    exact max_eq_left (by norm_num)

/-! ## Claim C4 -/

lemma firstArgmin_errorList_lt (c : FinalConsts) :
    firstArgmin (errorList c) < 200 := by
  have hne : errorList c ≠ [] := by
    intro h
    have hl := errorList_length c
    rw [h] at hl
    simp at hl
  have := firstArgmin_lt_length _ hne
  rwa [errorList_length c] at this

/-- C4: `best = df.loc[df["Error"].idxmin()]` selects a sample of minimum
`error` over the full sweep table, and among samples sharing the minimum
error it is the one of smallest `m_ref` (the first occurrence in the
ascending-flow order of the table). -/
theorem C4_selects_min_error_first (c : FinalConsts) :
    ∃ r, selectBest c = some r ∧
      (∀ r' ∈ finalTable c, r.error ≤ r'.error) ∧
      (∀ r' ∈ finalTable c, r'.error = r.error → r.m_ref ≤ r'.m_ref) := by
  have hi : firstArgmin (errorList c) < 200 := firstArgmin_errorList_lt c
  refine ⟨sampleRow c (((firstArgmin (errorList c) : ℚ) + 1) / 10), ?_, ?_, ?_⟩
  · rw [selectBest, finalTable_getElem? c hi]
  · intro r' hr'
    obtain ⟨j, hj, rfl⟩ := mem_finalTable c hr'
    have h1 := firstArgmin_le (errorList c) j (by rwa [errorList_length c])
    rwa [errorList_getD c hi, errorList_getD c hj] at h1
  · intro r' hr' heq
    obtain ⟨j, hj, rfl⟩ := mem_finalTable c hr'
    have hij : firstArgmin (errorList c) ≤ j := by
      by_contra hlt
      push_neg at hlt
      have hstrict := firstArgmin_first (errorList c) j hlt
      rw [errorList_getD c hi, errorList_getD c hj] at hstrict
      rw [heq] at hstrict
      exact absurd hstrict (lt_irrefl _)
    show ((firstArgmin (errorList c) : ℚ) + 1) / 10 ≤ ((j : ℚ) + 1) / 10
    have hc : ((firstArgmin (errorList c) : ℚ)) ≤ (j : ℚ) := Nat.cast_le.mpr hij
    linarith

/-- A concrete run state for exercising the selection rule. -/
def c4w : FinalConsts :=
  { m_da := 1, omega_in := 0, omega_out := 0, T_amb := 0, T_dew := 5,
    h1 := 0, h3 := 0, h2s := 0, P_evap := 1, P_cond := 1, eps := 1,
    mu_ref := 1, D_tube := 1, A_tube := 1, Re_air := 0 }

/-- C4 witness: on a concrete run the selected row exists and its error is at
most that of the concrete second sample. -/
theorem C4_witness :
    ∃ r, selectBest c4w = some r ∧ r.error ≤ (sampleRow c4w (2/10)).error := by
  obtain ⟨r, hsel, hmin, -⟩ := C4_selects_min_error_first c4w
  refine ⟨r, hsel, ?_⟩
  have hmem : sampleRow c4w ((((1 : Nat) : ℚ) + 1) / 10) ∈ finalTable c4w :=
    sampleRow_mem_finalTable c4w (by norm_num)
  have hcast : ((((1 : Nat) : ℚ) + 1) / 10) = (2/10 : ℚ) := by norm_num
  rw [hcast] at hmem
  exact hmin _ hmem

/-! ## Claim C5 -/

/-- A run state on which every sample has `W_comp = 0` (since `h2s = h1`, so
`h2 = h1` and `W_comp = m_ref * 0`): no sample has positive compressor work. -/
def c5x : FinalConsts :=
  { m_da := 1, omega_in := 0, omega_out := 0, T_amb := 0, T_dew := 5,
    h1 := 0, h3 := 0, h2s := 0, P_evap := 1, P_cond := 1, eps := 1,
    mu_ref := 1, D_tube := 1, A_tube := 1, Re_air := 0 }

lemma c5x_W_nonpos : ∀ r ∈ finalTable c5x, r.W_comp ≤ 0 := by
  intro r hr
  obtain ⟨j, hj, rfl⟩ := mem_finalTable c5x hr
  show Wcomp c5x (((j : ℚ) + 1) / 10) ≤ 0
  rw [Wcomp, h2_f]
  norm_num [c5x]

/-- A `vcr_cycle.py` run state with `h_in = h_out`, so every sample takes the
`Q_dot_air_W <= 0` branch and has `W_comp = 0.0`. -/
def vc5w : VcrConsts :=
  { h_in := 0, h_out := 0, omega_in := 0, omega_sat := 0,
    h1 := 0, h2s := 0, h4 := 0, P_evap := 1, P_cond := 1 }

lemma vc5w_W_not_pos : ∀ r ∈ vcrTable vc5w, optPos r.W_comp = false := by
  intro r hr
  obtain ⟨m, rfl⟩ := mem_vcrTable hr
  have hQ : vcrQ vc5w m ≤ 0 := by
    rw [vcrQ]
    norm_num [vc5w]
  rw [(vcrRow_of_Q_nonpos hQ).1]
  simp [optPos]

/-- C5 counterexample: on `c5x` no sample has `W_comp > 0`, yet `final.py`'s
selection (`df.loc[df["Error"].idxmin()]`) still returns a row — whose `COP`
is NaN — instead of reporting that no valid optimum exists. -/
theorem C5_counterexample :
    ((finalTable c5x).all fun r => decide (r.W_comp ≤ 0)) = true ∧
    selectBest c5x ≠ none ∧
    (selectBest c5x).map Row.COP = some none := by
  have hi : firstArgmin (errorList c5x) < 200 := firstArgmin_errorList_lt c5x
  have hsel : selectBest c5x =
      some (sampleRow c5x (((firstArgmin (errorList c5x) : ℚ) + 1) / 10)) := by
    rw [selectBest, finalTable_getElem? c5x hi]
  refine ⟨?_, ?_, ?_⟩
  · exact List.all_eq_true.mpr fun r hr => decide_eq_true (c5x_W_nonpos r hr)
  · rw [hsel]
    simp
  · rw [hsel, Option.map_some']
    rw [sampleRow_COP_of_nonpos (c5x_W_nonpos _ (sampleRow_mem_finalTable c5x hi))]

/-- C5 as amended: when no sweep sample has `W_comp > 0`, the refrigerant-flow
engine (`final.py`) does not report absence of a valid optimum — it still
returns the minimum-error sample, whose `COP` is non-numeric — while the
air-flow engine (`vcr_cycle.py`) does report that no valid optimum exists
(its `df_valid` filter comes out empty). -/
theorem C5_amended :
    (∀ c : FinalConsts, (∀ r ∈ finalTable c, r.W_comp ≤ 0) →
        ∃ r, selectBest c = some r ∧ r.COP = none) ∧
    (∀ vc : VcrConsts, (∀ r ∈ vcrTable vc, optPos r.W_comp = false) →
        vcrBest vc = none) := by
  constructor
  · intro c hall
    have hi : firstArgmin (errorList c) < 200 := firstArgmin_errorList_lt c
    refine ⟨sampleRow c (((firstArgmin (errorList c) : ℚ) + 1) / 10), ?_, ?_⟩
    · rw [selectBest, finalTable_getElem? c hi]
    · exact sampleRow_COP_of_nonpos (hall _ (sampleRow_mem_finalTable c hi))
  · intro vc hall
    have hfe : (vcrTable vc).filter vcrValid = [] := by
      rw [List.filter_eq_nil_iff]
      intro a ha
      obtain ⟨m, rfl⟩ := mem_vcrTable ha
      rw [vcrValid_of_W_not_pos (hall _ ha)]
      simp
    rw [vcrBest, hfe]

/-- C5 witness: the amended behavior at the concrete states `c5x`/`vc5w`. -/
theorem C5_witness :
    (∃ r, selectBest c5x = some r ∧ r.COP = none) ∧ vcrBest vc5w = none :=
  ⟨C5_amended.1 c5x c5x_W_nonpos, C5_amended.2 vc5w vc5w_W_not_pos⟩

/-! ## Claim C6 -/

lemma finalTable_mref_map (c : FinalConsts) :
    (finalTable c).map Row.m_ref = m_ref_vals := by
  rw [finalTable, sweepTable, List.map_map]
  have h : ∀ m ∈ m_ref_vals, (Row.m_ref ∘ sampleRow c) m = id m := fun m _ => rfl
  rw [List.map_congr_left h, List.map_id]

lemma m_ref_vals_chain : m_ref_vals.Chain' (· < ·) := by
  rw [m_ref_vals]
  refine List.Pairwise.chain' (List.Pairwise.map _ ?_ (List.pairwise_lt_range 200))
  intro a b hab
  show ((a : ℚ) + 1) / 10 < ((b : ℚ) + 1) / 10
  have : (a : ℚ) < b := Nat.cast_lt.mpr hab
  linarith

lemma m_da_vals_chain : m_da_vals.Chain' (· < ·) := by
  rw [m_da_vals]
  refine List.Pairwise.chain' (List.Pairwise.map _ ?_ (List.pairwise_lt_range 49))
  intro a b hab
  show ((a : ℚ) + 1) / 10 < ((b : ℚ) + 1) / 10
  have : (a : ℚ) < b := Nat.cast_lt.mpr hab
  linarith

lemma vcrRow_m_da (vc : VcrConsts) (m : ℚ) : (vcrRow vc m).m_da = m := by
  rw [vcrRow]
  split
  · rfl
  · split <;> rfl

lemma vcrTable_mda_map (vc : VcrConsts) :
    (vcrTable vc).map VRow.m_da = m_da_vals := by
  rw [vcrTable, List.map_map]
  have h : ∀ m ∈ m_da_vals, (VRow.m_da ∘ vcrRow vc) m = id m := fun m _ =>
    vcrRow_m_da vc m
  rw [List.map_congr_left h, List.map_id]

/-- A run state whose samples are non-physical in the sense
`q_evap_specific ≤ 0` while `W_comp > 0` (`h3 > h1`, `h2s` chosen so that
`h2 - h1 = 1`). -/
def c6x : FinalConsts :=
  { m_da := 1, omega_in := 0, omega_out := 0, T_amb := 0, T_dew := 5,
    h1 := 0, h3 := 1, h2s := 78/100, P_evap := 1, P_cond := 1, eps := 1,
    mu_ref := 1, D_tube := 1, A_tube := 1, Re_air := 0 }

lemma c6x_eta : eta_f c6x = 78/100 := by
  rw [eta_f, PR_f, isentropic_eff]
  rw [show c6x.P_cond / c6x.P_evap - 2 = -1 by norm_num [c6x]]
  rw [max_eq_left (by norm_num : (-1 : ℚ) ≤ 0)]
  rw [show (78:ℚ)/100 - 3/100 * 0 = 78/100 by ring]
  rw [max_eq_left (by norm_num), min_eq_left (by norm_num)]

lemma c6x_W_pos : 0 < Wcomp c6x (1/10) := by
  rw [Wcomp, h2_f, c6x_eta]
  norm_num [c6x]

/-- C6 counterexample: on `c6x` the samples have `q_evap_specific ≤ 0` (a
non-physical configuration), yet the `final.py` row for `m_ref = 0.1` is kept
with every field numeric — `COP = some (-1)` and `water_per_kWh = some 0` —
rather than with non-numeric fields. -/
theorem C6_counterexample :
    q_evap_f c6x ≤ 0 ∧
    (finalTable c6x)[0]? = some (sampleRow c6x (1/10)) ∧
    (sampleRow c6x (1/10)).COP = some (-1) ∧
    (sampleRow c6x (1/10)).water_per_kWh = some 0 := by
  refine ⟨by norm_num [q_evap_f, c6x], ?_, ?_, ?_⟩
  · rw [finalTable_getElem? c6x (by norm_num)]
    norm_num
  · rw [sampleRow_COP_of_pos c6x_W_pos]
    rw [Qactual, Qref, Wcomp, h2_f, c6x_eta, q_evap_f]
    norm_num [c6x]
  · have h := c6x_W_pos
    show (if 0 < Wcomp c6x (1/10) then
        some (waterF c6x * 3600 / (Wcomp c6x (1/10) / 1000)) else none) = some 0
    rw [if_pos h]
    rw [show waterF c6x * 3600 = 0 by norm_num [waterF, c6x]]
    rw [zero_div]

/-- C6 as amended: for every run, both sweep tables have exactly one row per
candidate mass-flow value, in strictly ascending mass-flow order, and
non-physical samples are retained rather than discarded; samples with
`W_comp ≤ 0` have non-numeric `COP` and `water_per_kWh` (`final.py`), and
samples with positive air load but `q_evap_specific ≤ 0` have non-numeric
`m_ref`, `W_comp`, `COP` (`vcr_cycle.py`) — but a `final.py` sample with
`q_evap_specific ≤ 0` and `W_comp > 0` keeps all its fields numeric. -/
theorem C6_amended :
    (∀ c : FinalConsts,
        (finalTable c).length = m_ref_vals.length ∧
        ((finalTable c).map Row.m_ref).Chain' (· < ·) ∧
        ∀ r ∈ finalTable c, r.W_comp ≤ 0 →
          r.COP = none ∧ r.water_per_kWh = none) ∧
    (∀ vc : VcrConsts,
        (vcrTable vc).length = m_da_vals.length ∧
        ((vcrTable vc).map VRow.m_da).Chain' (· < ·) ∧
        ∀ r ∈ vcrTable vc, 0 < r.Q → vcrQevap vc ≤ 0 →
          r.m_ref = none ∧ r.W_comp = none ∧ r.COP = none) := by
  constructor
  · intro c
    refine ⟨by rw [finalTable_length, m_ref_vals_length], ?_, ?_⟩
    · rw [finalTable_mref_map]
      exact m_ref_vals_chain
    · intro r hr hW
      obtain ⟨j, hj, rfl⟩ := mem_finalTable c hr
      exact ⟨sampleRow_COP_of_nonpos hW, sampleRow_wpk_of_nonpos hW⟩
  · intro vc
    refine ⟨by rw [vcrTable, List.length_map], ?_, ?_⟩
    · rw [vcrTable_mda_map]
      exact m_da_vals_chain
    · intro r hr hQ hq
      obtain ⟨m, rfl⟩ := mem_vcrTable hr
      rw [vcrRow_Q] at hQ
      obtain ⟨h1, h2, h3, -⟩ := vcrRow_of_qevap_nonpos (not_le.mpr hQ) hq
      exact ⟨h1, h2, h3⟩

/-- A run state on which every sample has `W_comp = 0`. -/
def c6w : FinalConsts :=
  { m_da := 1, omega_in := 0, omega_out := 0, T_amb := 0, T_dew := 5,
    h1 := 0, h3 := 0, h2s := 0, P_evap := 1, P_cond := 1, eps := 1,
    mu_ref := 1, D_tube := 1, A_tube := 1, Re_air := 0 }

/-- C6 witness: the amended claim at the concrete state `c6w` and its first
sample (whose `W_comp = 0`). -/
theorem C6_witness :
    (finalTable c6w).length = m_ref_vals.length ∧
    (sampleRow c6w ((((0 : Nat) : ℚ) + 1) / 10)).COP = none ∧
    (sampleRow c6w ((((0 : Nat) : ℚ) + 1) / 10)).water_per_kWh = none := by
  have hW : (sampleRow c6w ((((0 : Nat) : ℚ) + 1) / 10)).W_comp ≤ 0 := by
    show Wcomp c6w ((((0 : Nat) : ℚ) + 1) / 10) ≤ 0
    rw [Wcomp, h2_f]
    norm_num [c6w]
  have h := (C6_amended.1 c6w).2.2 _ (sampleRow_mem_finalTable c6w (by norm_num)) hW
  exact ⟨(C6_amended.1 c6w).1, h.1, h.2⟩

/-! ## Claim C7 -/

/-- A `vcr_cycle.py` run state with `h_in = h_out`, so every sample takes the
`Q_dot_air_W <= 0` branch. -/
def vc7x : VcrConsts :=
  { h_in := 0, h_out := 0, omega_in := 0, omega_sat := 0,
    h1 := 0, h2s := 0, h4 := 0, P_evap := 1, P_cond := 1 }

lemma vc7x_Q_nonpos : vcrQ vc7x (1/10) ≤ 0 := by
  rw [vcrQ]
  norm_num [vc7x]

/-- C7 counterexample: in the `vcr_cycle.py` sweep, the sample for
`m_da = 0.1` on `vc7x` has `W_comp = 0.0` (not positive), yet its reported
`COP` is the number `0.0` — not a non-numeric undefined value. -/
theorem C7_counterexample :
    (vcrRow vc7x (1/10)).W_comp = some 0 ∧
    optPos (vcrRow vc7x (1/10)).W_comp = false ∧
    (vcrRow vc7x (1/10)).COP = some 0 := by
  obtain ⟨hW, hC, -⟩ := vcrRow_of_Q_nonpos vc7x_Q_nonpos
  refine ⟨hW, ?_, hC⟩
  rw [hW]
  simp [optPos]

/-- C7 as amended: in `final.py`, `COP = Q_actual / W_comp` when `W_comp > 0`
and NaN (non-numeric) otherwise; in `vcr_cycle.py` the same holds on samples
with positive air-side load (with NaN also when `q_evap_specific ≤ 0`), but a
sample with non-positive air-side load records `COP` as the number `0.0`. -/
theorem C7_amended :
    (∀ (c : FinalConsts) (m : ℚ),
        (0 < Wcomp c m → (sampleRow c m).COP = some (Qactual c m / Wcomp c m)) ∧
        (Wcomp c m ≤ 0 → (sampleRow c m).COP = none)) ∧
    (∀ (vc : VcrConsts) (m : ℚ),
        (vcrQ vc m ≤ 0 → (vcrRow vc m).COP = some 0) ∧
        (0 < vcrQ vc m → vcrQevap vc ≤ 0 → (vcrRow vc m).COP = none) ∧
        (0 < vcrQ vc m → 0 < vcrQevap vc → 0 < vcrW vc m →
          (vcrRow vc m).COP = some (vcrQ vc m / vcrW vc m)) ∧
        (0 < vcrQ vc m → 0 < vcrQevap vc → vcrW vc m ≤ 0 →
          (vcrRow vc m).COP = none)) := by
  constructor
  · intro c m
    exact ⟨fun h => sampleRow_COP_of_pos h, fun h => sampleRow_COP_of_nonpos h⟩
  · intro vc m
    refine ⟨fun hQ => (vcrRow_of_Q_nonpos hQ).2.1,
            fun hQ hq => (vcrRow_of_qevap_nonpos (not_le.mpr hQ) hq).2.2.1,
            fun hQ hq hW => ?_, fun hQ hq hW => ?_⟩
    · rw [(vcrRow_main (not_le.mpr hQ) (not_le.mpr hq)).2.1, if_pos hW]
    · rw [(vcrRow_main (not_le.mpr hQ) (not_le.mpr hq)).2.1,
        if_neg (not_lt.mpr hW)]

/-- A run state whose samples have positive compressor work
(`h2 - h1 = 1 > 0`). -/
def c7w : FinalConsts :=
  { m_da := 1, omega_in := 0, omega_out := 0, T_amb := 0, T_dew := 5,
    h1 := 0, h3 := -1, h2s := 78/100, P_evap := 1, P_cond := 1, eps := 1,
    mu_ref := 1, D_tube := 1, A_tube := 1, Re_air := 0 }

lemma c7w_eta : eta_f c7w = 78/100 := by
  rw [eta_f, PR_f, isentropic_eff]
  rw [show c7w.P_cond / c7w.P_evap - 2 = -1 by norm_num [c7w]]
  rw [max_eq_left (by norm_num : (-1 : ℚ) ≤ 0)]
  rw [show (78:ℚ)/100 - 3/100 * 0 = 78/100 by ring]
  rw [max_eq_left (by norm_num), min_eq_left (by norm_num)]

lemma c7w_W_pos : 0 < Wcomp c7w 1 := by
  rw [Wcomp, h2_f, c7w_eta]
  norm_num [c7w]

/-- C7 witness: both sides of the amended claim at concrete states. -/
theorem C7_witness :
    (sampleRow c7w 1).COP = some (Qactual c7w 1 / Wcomp c7w 1) ∧
    (vcrRow vc7x (1/10)).COP = some 0 :=
  ⟨(C7_amended.1 c7w 1).1 c7w_W_pos, (C7_amended.2 vc7x (1/10)).1 vc7x_Q_nonpos⟩

/-! ## Claim C8 -/

/-- C8 counterexample: with the non-positive tube diameter `D = -0.01` the
configuration step of `final.py` accepts (computing a positive `A_tube`,
since the diameter is squared) and proceeds to the sweep; the specification's
validation would have rejected.  No `InvalidGeometryError` exists in the
repository. -/
theorem C8_counterexample :
    configureGeometry (-1/100) 1 =
      ConfigOutcome.accepted (A_tube_calc (-1/100) 1) ∧
    0 < A_tube_calc (-1/100) 1 ∧
    configureGeometry_spec (-1/100) 1 = ConfigOutcome.rejectedInvalidGeometry ∧
    configureGeometry (-1/100) 1 ≠ configureGeometry_spec (-1/100) 1 := by
  have hpos : 0 < A_tube_calc (-1/100) 1 := by
    rw [A_tube_calc, pi_f]
    norm_num
  have hspec : configureGeometry_spec (-1/100) 1 =
      ConfigOutcome.rejectedInvalidGeometry := by
    rw [configureGeometry_spec, if_pos]
    left
    norm_num
  refine ⟨rfl, hpos, hspec, ?_⟩
  rw [hspec]
  intro h
  exact ConfigOutcome.noConfusion h

/-- C8 as amended: the program performs no geometry validation — the
configuration step accepts every tube diameter unconditionally, and for any
nonzero `D` (non-positive included) and positive tube count the computed flow
area `(π·D²/4)·N` is positive, so the sweep proceeds normally. -/
theorem C8_amended (D N : ℚ) (hD : D ≠ 0) (hN : 0 < N) :
    configureGeometry D N = ConfigOutcome.accepted (A_tube_calc D N) ∧
    0 < A_tube_calc D N := by
  refine ⟨rfl, ?_⟩
  have hD2 : 0 < D ^ 2 :=
    lt_of_le_of_ne (sq_nonneg D) (Ne.symm (pow_ne_zero 2 hD))
  have hpi : 0 < pi_f := by
    rw [pi_f]
    norm_num
  rw [A_tube_calc]
  exact mul_pos (div_pos (mul_pos hpi hD2) (by norm_num)) hN

/-- C8 witness: the amended claim at the concrete geometry `D = 0.01`,
`N = 1` (the configured defaults). -/
theorem C8_witness :
    configureGeometry (1/100) 1 =
      ConfigOutcome.accepted (A_tube_calc (1/100) 1) ∧
    0 < A_tube_calc (1/100) 1 :=
  C8_amended (1/100) 1 (by norm_num) (by norm_num)

/-! ## Claim C9 -/

/-- C9: in `final.py`, whenever the API branch is skipped or raises
(`apiResult = none`), `fetch_weather` returns exactly the hardcoded defaults
`(32.0, 101325.0, 0.7)` — for every possible state of the manual-input file,
because the `csv` module referenced by the file branch is absent from the
module's imports, so that branch always raises (NameError, or the open
failure), the exception is swallowed, and the default branch runs. -/
theorem C9_fetch_weather_defaults :
    ∀ fileContents : Option (List WeatherTriple),
      fetch_weather none fileContents = some ⟨32, 101325, 7/10⟩ := by
  intro fc
  have hcsv : final_py_imports.contains "csv" = false := by decide
  cases fc with
  | none => rfl
  | some rows =>
    show fetch_weather_fallback (some rows) = some ⟨32, 101325, 7/10⟩
    rw [fetch_weather_fallback, manualInputTry, hcsv]
    rfl

/-! ## Claim C10 -/

/-- C10: in the `final.py` sweep, `COP` is independent of `m_ref` — every
sample with `W_comp > 0` carries the identical value
`eps * q_evap / (h2 - h1)`, because `Q_actual` and `W_comp` both scale
linearly in `m_ref` while all other factors are run-level constants. -/
theorem C10_COP_independent_of_mref (c : FinalConsts) (m₁ m₂ : ℚ)
    (h₁ : 0 < Wcomp c m₁) (h₂ : 0 < Wcomp c m₂) :
    (sampleRow c m₁).COP = some (c.eps * q_evap_f c / (h2_f c - c.h1)) ∧
    (sampleRow c m₁).COP = (sampleRow c m₂).COP := by
  have key : ∀ m : ℚ, 0 < Wcomp c m →
      (sampleRow c m).COP = some (c.eps * q_evap_f c / (h2_f c - c.h1)) := by
    intro m hm
    rw [sampleRow_COP_of_pos hm]
    congr 1
    have hmne : m ≠ 0 := by
      intro h0
      rw [Wcomp, h0, zero_mul] at hm
      exact lt_irrefl 0 hm
    rw [Qactual, Qref, Wcomp]
    rw [show c.eps * (m * q_evap_f c) = m * (c.eps * q_evap_f c) by ring]
    exact mul_div_mul_left _ _ hmne
  exact ⟨key m₁ h₁, (key m₁ h₁).trans (key m₂ h₂).symm⟩

/-- A run state with `h2 - h1 = 1` and `q_evap = 1`, so `W_comp = m_ref > 0`
on the sweep. -/
def c10w : FinalConsts :=
  { m_da := 1, omega_in := 0, omega_out := 0, T_amb := 0, T_dew := 5,
    h1 := 0, h3 := -1, h2s := 78/100, P_evap := 1, P_cond := 1, eps := 1,
    mu_ref := 1, D_tube := 1, A_tube := 1, Re_air := 0 }

lemma c10w_eta : eta_f c10w = 78/100 := by
  rw [eta_f, PR_f, isentropic_eff]
  rw [show c10w.P_cond / c10w.P_evap - 2 = -1 by norm_num [c10w]]
  rw [max_eq_left (by norm_num : (-1 : ℚ) ≤ 0)]
  rw [show (78:ℚ)/100 - 3/100 * 0 = 78/100 by ring]
  rw [max_eq_left (by norm_num), min_eq_left (by norm_num)]

lemma c10w_W_pos1 : 0 < Wcomp c10w 1 := by
  rw [Wcomp, h2_f, c10w_eta]
  norm_num [c10w]

lemma c10w_W_pos2 : 0 < Wcomp c10w 2 := by
  rw [Wcomp, h2_f, c10w_eta]
  norm_num [c10w]

/-- C10 witness: the two concrete samples `m_ref = 1` and `m_ref = 2` of
`c10w` have positive compressor work and the identical COP value. -/
theorem C10_witness :
    (sampleRow c10w 1).COP =
      some (c10w.eps * q_evap_f c10w / (h2_f c10w - c10w.h1)) ∧
    (sampleRow c10w 1).COP = (sampleRow c10w 2).COP :=
  C10_COP_independent_of_mref c10w 1 2 c10w_W_pos1 c10w_W_pos2
